import Mathlib

/-!
Verification of the PlanetAI OMI zone-resolution engine.

This file gives a shallow embedding of the core of the repository
(`omi_utils.py` and the estimation step of `agent_core.py`) and proves
properties of it.  Python floats are modelled by exact rationals `ℚ`;
pandas string cells are modelled by `String`; the module-level mutable
cache of `omi_utils.py` is modelled by an explicit state record that is
threaded through the load functions; the files on disk are modelled by
an `OmiFiles` record holding the parsed contents that the corresponding
reader would produce.
-/

set_option maxRecDepth 100000

namespace PlanetAI

/-! ## Python string primitives used by the source -/

/-- Whitespace characters stripped by Python `str.strip()`. -/
def isPyWs (c : Char) : Bool :=
  c == ' ' || c == '\t' || c == '\n' || c == '\r' || c == '\x0b' || c == '\x0c'

/-- Strip characters satisfying `p` from both ends of a string
(Python `str.strip` with a character class). -/
def pyStripP (p : Char → Bool) (s : String) : String :=
  ⟨((s.data.dropWhile p).reverse.dropWhile p).reverse⟩

/-- Python `s.strip()` (no argument: strip whitespace). -/
def pyStrip (s : String) : String := pyStripP isPyWs s

/-- Python `s.strip("'")`: strip apostrophe characters (code point 39). -/
def pyStripApostrophes (s : String) : String :=
  pyStripP (fun c => c == Char.ofNat 39) s

/-- Python `s.upper()` (ASCII-faithful; the reference data is ASCII). -/
def pyUpper (s : String) : String := ⟨s.data.map Char.toUpper⟩

/-- Helper for `pyTitle`: the boolean records whether the previous
character was cased (alphabetic). -/
def pyTitleAux : Bool → List Char → List Char
  | _, [] => []
  | prevCased, c :: cs =>
    if c.isAlpha then
      (if prevCased then c.toLower else c.toUpper) :: pyTitleAux true cs
    else
      c :: pyTitleAux false cs

/-- Python `s.title()`: first letter of every alphabetic run is
uppercased, the rest lowercased (ASCII-faithful). -/
def pyTitle (s : String) : String := ⟨pyTitleAux false s.data⟩

/-- Fuel-indexed worker for `pyReplace`; the fuel is the length of the
input, which bounds the number of steps since each step consumes at
least one character. -/
def pyReplaceAux (pat repl : List Char) : ℕ → List Char → List Char
  | 0, l => l
  | _ + 1, [] => []
  | fuel + 1, c :: cs =>
    if pat.isPrefixOf (c :: cs) && !pat.isEmpty then
      repl ++ pyReplaceAux pat repl fuel (cs.drop (pat.length - 1))
    else
      c :: pyReplaceAux pat repl fuel cs

/-- Python `s.replace(pat, repl)`: replace all non-overlapping
occurrences, left to right. -/
def pyReplace (s pat repl : String) : String :=
  ⟨pyReplaceAux pat.data repl.data s.data.length s.data⟩

/-- Number of occurrences of the character `c` in `s`
(Python `s.count(c)` for a single-character argument). -/
def countChar (c : Char) (s : String) : ℕ := s.data.countP (· == c)

/-! ## Numeric parsing: Python `float(...)` and `_safe_float` -/

/-- Value of a digit string, most significant first. -/
def digitsVal (l : List Char) : ℕ := l.foldl (fun a c => 10 * a + (c.toNat - 48)) 0

/-- Split an optional leading sign off a character list. -/
def splitSign : List Char → Int × List Char
  | '+' :: rest => (1, rest)
  | '-' :: rest => (-1, rest)
  | l => (1, l)

/-- Parse an unsigned decimal mantissa `digits [. digits]` (at least one
digit overall), returning its value and the unparsed remainder. -/
def parseMantissa (l : List Char) : Option (ℚ × List Char) :=
  let intPart := l.takeWhile Char.isDigit
  let rest := l.dropWhile Char.isDigit
  match rest with
  | '.' :: rest2 =>
    let fracPart := rest2.takeWhile Char.isDigit
    let rest3 := rest2.dropWhile Char.isDigit
    if intPart.isEmpty && fracPart.isEmpty then none
    else some ((digitsVal intPart : ℚ) + (digitsVal fracPart : ℚ) / (10 ^ fracPart.length), rest3)
  | _ =>
    if intPart.isEmpty then none
    else some ((digitsVal intPart : ℚ), rest)

/-- Embedding of Python `float(s)` on decimal literals: optional sign,
decimal mantissa, optional exponent part, with surrounding whitespace
allowed; any other input yields `none` (the `ValueError` case).  The
special forms `inf`/`nan` and underscore separators are not modelled:
they cannot arise from the comma/dot rewriting done by `_safe_float` on
the reference data. -/
def pythonFloat (s : String) : Option ℚ :=
  let l := (pyStrip s).data
  let (sgn, l) := splitSign l
  match parseMantissa l with
  | none => none
  | some (m, rest) =>
    match rest with
    | [] => some (sgn * m)
    | c :: r2 =>
      if c == 'e' || c == 'E' then
        let (esgn, r3) := splitSign r2
        let ds := r3.takeWhile Char.isDigit
        let r4 := r3.dropWhile Char.isDigit
        if ds.isEmpty || !r4.isEmpty then none
        else some ((sgn * m) * (10 : ℚ) ^ (esgn * (digitsVal ds : ℤ)))
      else none

/-- Embedding of `_safe_float` (omi_utils.py, lines 54-76) on string
cells.  (The `None` and `int`/`float` pass-through branches of the
Python function do not arise here because pandas cells are read with
`dtype=str` and are modelled as `String`.) -/
def safeFloat (x : String) : Option ℚ :=
  let s := pyStrip x
  if s.isEmpty || pyUpper s == "NA" then none
  else
    let s :=
      if countChar ',' s == 1 && decide (countChar '.' s > 1) then
        pyReplace (pyReplace s "." "") "," "."
      else
        pyReplace s "," "."
    pythonFloat s

/-! ## Ray casting: `_point_in_polygon` (omi_utils.py, lines 173-193) -/

/-- The `1e-12` guard added to the edge's y-span denominator. -/
def rayEps : ℚ := 1 / 1000000000000

/-- Total indexing into a vertex list (Python list indexing is always in
range here because the loop runs over `range(n)` and `(i+1) % n`). -/
def vtx (poly : List (ℚ × ℚ)) (i : ℕ) : ℚ × ℚ := poly.getD i (0, 0)

/-- One iteration of the ray-casting loop for the edge `p1 → p2`.
Returns `none` when Python would raise `ZeroDivisionError`, i.e. when
the crossing condition holds and the padded denominator is exactly zero.
The crossing condition is evaluated first, mirroring Python's
short-circuit `and`: for a horizontal edge the division is never
reached. -/
def pipEdge (x y : ℚ) (p1 p2 : ℚ × ℚ) (inside : Bool) : Option Bool :=
  if (decide (p1.2 > y)) != (decide (p2.2 > y)) then
    let d := p2.2 - p1.2 + rayEps
    if d = 0 then none
    else some (if x < (p2.1 - p1.1) * (y - p1.2) / d + p1.1 then !inside else inside)
  else some inside

/-- Embedding of `_point_in_polygon`: `none` models a raised
`ZeroDivisionError`, `some b` a normal boolean return. -/
def pointInPolygon (x y : ℚ) (poly : List (ℚ × ℚ)) : Option Bool :=
  if poly.length < 3 then some false
  else
    (List.range poly.length).foldl
      (fun acc i => acc.bind (pipEdge x y (vtx poly i) (vtx poly ((i + 1) % poly.length))))
      (some false)

/-! ## Data model: reference rows, zone rows, polygons, cache state -/

/-- A row of the values CSV (`QI_20251_VALORI.csv`), restricted to the
columns the code reads.  All cells are strings (`dtype=str`). -/
structure OmiRow where
  Zona : String
  Comune_descrizione : String
  Prov : String
  Descr_Tipologia : String
  Compr_min : String
  Compr_max : String
deriving DecidableEq

/-- A row of the zone-description CSV (`QI_20251_ZONE.csv`). -/
structure ZoneRow where
  Zona : String
  Comune_descrizione : String
  Prov : String
  Zona_Descr : String
deriving DecidableEq

/-- A polygon parsed from a KML file. -/
structure OmiPolygon where
  zona : String
  comune : String
  provincia : String
  polygon : List (ℚ × ℚ)
deriving DecidableEq

/-- The result dataclass `OMIQuotazione`. -/
structure OMIQuotazione where
  comune : String
  provincia : String
  zona_codice : String
  zona_descrizione : String
  val_min_mq : Option ℚ
  val_med_mq : Option ℚ
  val_max_mq : Option ℚ
deriving DecidableEq

/-- The files the loaders read, as the parsed contents the
corresponding reader would produce; `none` models a missing file
(`os.path.exists` false). -/
structure OmiFiles where
  valoriCsv : Option (List OmiRow)
  zoneCsv : Option (List ZoneRow)
  kmlPolygons : List OmiPolygon
deriving DecidableEq

/-- The module-level cache of `omi_utils.py`:
`_omi_polygons`, `_omi_valori_df`, `_omi_zone_df`, `_omi_cache_ready`. -/
structure OmiState where
  omi_polygons : List OmiPolygon
  omi_valori_df : Option (List OmiRow)
  omi_zone_df : Option (List ZoneRow)
  omi_cache_ready : Bool
deriving DecidableEq

/-- The cache at module import time. -/
def initOmiState : OmiState := ⟨[], none, none, false⟩

/-! ## Loaders (`_load_omi_csvs`, `_load_omi_polygons`, `warmup_omi_cache`) -/

/-- Embedding of `_load_omi_csvs` (lines 201-227).  Besides the new
state it returns the list of files that were actually read, so that
"re-reads no files" is statable. -/
def loadOmiCsvs (fs : OmiFiles) (s : OmiState) : OmiState × List String :=
  let (v, f1) :=
    match s.omi_valori_df, fs.valoriCsv with
    | none, some t => (some t, ["QI_20251_VALORI.csv"])
    | v, _ => (v, [])
  let (z, f2) :=
    match s.omi_zone_df, fs.zoneCsv with
    | none, some t => (some t, ["QI_20251_ZONE.csv"])
    | z, _ => (z, [])
  ({ s with omi_valori_df := v, omi_zone_df := z }, f1 ++ f2)

/-- Embedding of `_load_omi_polygons` (lines 235-260).  The
`ensure_omi_unzipped` step only touches the disk, which is fixed in
`fs`; the glob over `*.kml` files is modelled as reading `fs.kmlPolygons`. -/
def loadOmiPolygons (fs : OmiFiles) (s : OmiState) : OmiState × List String :=
  if s.omi_polygons.isEmpty then
    ({ s with omi_polygons := fs.kmlPolygons }, ["*.kml"])
  else (s, [])

/-- Embedding of `warmup_omi_cache` (lines 403-418). -/
def warmupOmiCache (fs : OmiFiles) (s : OmiState) : OmiState × List String :=
  if s.omi_cache_ready then (s, [])
  else
    let r1 := loadOmiCsvs fs s
    let r2 := loadOmiPolygons fs r1.1
    ({ r2.1 with omi_cache_ready := true }, r1.2 ++ r2.2)

/-! ## Value Resolver (`_get_valori_for_zona`, omi_utils.py lines 268-395) -/

/-- The local `_norm` helper: `"" if s is None else s.strip().upper()`. -/
def normHint : Option String → String
  | none => ""
  | some s => pyUpper (pyStrip s)

/-- The residential filter (line 306): keep only rows whose
`Descr_Tipologia` upper-cases to one of the two residential classes. -/
def residentialFilter (df : List OmiRow) : List OmiRow :=
  df.filter fun r =>
    pyUpper r.Descr_Tipologia == "ABITAZIONI CIVILI" ||
    pyUpper r.Descr_Tipologia == "ABITAZIONI SIGNORILI"

/-- The tier-1 mask (lines 309-313): zone always, municipality and
province only when the corresponding hint is non-empty (Python
truthiness of the upper-cased hint). -/
def valoriTier1 (zU cU pU : String) (r : OmiRow) : Bool :=
  pyUpper r.Zona == zU &&
  (cU == "" || pyUpper r.Comune_descrizione == cU) &&
  (pU == "" || pyUpper r.Prov == pU)

/-- Strict three-key match: zone, municipality and province all equal
(case-insensitively) to the hints.  For non-empty hints this coincides
with `valoriTier1`. -/
def match3Keys (zU cU pU : String) (r : OmiRow) : Bool :=
  pyUpper r.Zona == zU && pyUpper r.Comune_descrizione == cU && pyUpper r.Prov == pU

/-- The hierarchical fallback over the (already resident-filtered)
values table (lines 308-333): tier 1 `{zona, comune, prov}` (with the
empty-hint relaxations), tier 2 `{zona, prov}`, tier 3 `{zona, comune}`,
tier 4 `{zona}`. -/
def matchedRows (df : List OmiRow) (zU cU pU : String) : List OmiRow :=
  let rows := df.filter (valoriTier1 zU cU pU)
  let rows :=
    if rows.isEmpty && !(pU == "") then
      df.filter fun r => pyUpper r.Zona == zU && pyUpper r.Prov == pU
    else rows
  let rows :=
    if rows.isEmpty && !(cU == "") then
      df.filter fun r => pyUpper r.Zona == zU && pyUpper r.Comune_descrizione == cU
    else rows
  if rows.isEmpty then df.filter (fun r => pyUpper r.Zona == zU) else rows

/-- Python `min` over a list of rationals (`none` for an empty list). -/
def listMinQ : List ℚ → Option ℚ
  | [] => none
  | a :: as => some (as.foldl min a)

/-- Python `max` over a list of rationals (`none` for an empty list). -/
def listMaxQ : List ℚ → Option ℚ
  | [] => none
  | a :: as => some (as.foldl max a)

/-- Lines 376-385: parse `Compr_min` / `Compr_max` over the matched
rows, drop unparsable cells, and compute the value triple; if either
list is empty all three values are `None` together. -/
def computeVals (rows : List OmiRow) : Option ℚ × Option ℚ × Option ℚ :=
  let valsMin := rows.filterMap fun r => safeFloat r.Compr_min
  let valsMax := rows.filterMap fun r => safeFloat r.Compr_max
  match listMinQ valsMin, listMaxQ valsMax with
  | some vmin, some vmax => (some vmin, some ((vmin + vmax) / 2), some vmax)
  | _, _ => (none, none, none)

/-- The zone-description tier-1 mask (lines 350-354), built exactly like
the values tier-1 mask. -/
def zoneTier1 (zU cU pU : String) (r : ZoneRow) : Bool :=
  pyUpper r.Zona == zU &&
  (cU == "" || pyUpper r.Comune_descrizione == cU) &&
  (pU == "" || pyUpper r.Prov == pU)

/-- Cleaning of the raw description text (lines 362-371): strip
whitespace, strip apostrophes, strip whitespace again, title-case,
replace the two colon-separator forms by an en-dash. -/
def cleanDescr (raw : String) : String :=
  let c := pyStrip (pyStripApostrophes (pyStrip raw))
  let c := pyTitle c
  pyReplace (pyReplace c " :" " – ") ": " " – "

/-- Zone-description resolution (lines 347-373): default label
`"Zona OMI <code>"`; when the zone table is loaded and non-empty, try
the tier-1 mask, then fall back directly to the zone-only mask; the
first matching row's text is cleaned. -/
def descrForZona (dz? : Option (List ZoneRow)) (zU cU pU : String) : String :=
  let base := "Zona OMI " ++ zU
  match dz? with
  | none => base
  | some dz =>
    if dz.isEmpty then base
    else
      let rz := dz.filter (zoneTier1 zU cU pU)
      let rz := if rz.isEmpty then dz.filter (fun r => pyUpper r.Zona == zU) else rz
      match rz with
      | [] => base
      | r :: _ => cleanDescr r.Zona_Descr

/-- The pure part of `_get_valori_for_zona`, once the loaded tables are
in hand (lines 290-395): empty-table guard, hint normalization,
residential filter, hierarchical match, display fields, description,
value triple. -/
def getValoriCore (df0 : List OmiRow) (dz? : Option (List ZoneRow)) (zona : String)
    (comune_kml provincia_kml : Option String) : Option OMIQuotazione :=
  if df0.isEmpty then none
  else
    let zona_up := pyUpper (pyStrip zona)
    let comune_up := normHint comune_kml
    let prov_up := normHint provincia_kml
    let df := residentialFilter df0
    match matchedRows df zona_up comune_up prov_up with
    | [] => none
    | r :: rest =>
      let comune := pyTitle r.Comune_descrizione
      let provincia := pyUpper r.Prov
      let zona_descr := descrForZona dz? zona_up comune_up prov_up
      let v := computeVals (r :: rest)
      some ⟨comune, provincia, zona_up, zona_descr, v.1, v.2.1, v.2.2⟩

/-- Embedding of `_get_valori_for_zona`.  It first runs
`_load_omi_csvs` (which may read files), hence returns the updated
cache state along with the optional result; a still-unloaded or empty
values table yields `none`. -/
def getValoriForZona (fs : OmiFiles) (s : OmiState) (zona : String)
    (comune_kml provincia_kml : Option String) : OmiState × Option OMIQuotazione :=
  let s := (loadOmiCsvs fs s).1
  match s.omi_valori_df with
  | none => (s, none)
  | some df0 => (s, getValoriCore df0 s.omi_zone_df zona comune_kml provincia_kml)

/-! ## Estimation Blender
(`stima_prezzo_zona_nuova_costruzione`, agent_core.py; the estimation
steps 4-6 operating on the already-computed OMI result and the two
market statistics, which are external inputs to this core) -/

/-- Configuration constants from config.py. -/
def MIN_COMPARABLE_NUOVO : ℕ := 5

/-- `SPREAD_NUOVO_MIN = 0.15`. -/
def SPREAD_NUOVO_MIN : ℚ := 15 / 100

/-- `SPREAD_NUOVO_MAX = 0.35`. -/
def SPREAD_NUOVO_MAX : ℚ := 35 / 100

/-- `FATTORE_DEFAULT_SU_OMI = 1.25`. -/
def FATTORE_DEFAULT_SU_OMI : ℚ := 125 / 100

/-- The aggregate produced by `calcola_statistiche` (a non-`None` dict
with keys `n`, `mediana`, `p25`, `p75`). -/
structure Stats where
  n : ℕ
  mediana : ℚ
  p25 : ℚ
  p75 : ℚ
deriving DecidableEq

/-- A fully populated `{"prudente", "centrale", "aggressivo"}` dict.
In the source each of the three producing branches assigns all three
keys together, so a dict with a non-`None` central figure has all three
tiers set; the `Option StimaTriple` below models exactly the two shapes
that occur (`portali_ok` / `omi_ok` test the central figure). -/
structure StimaTriple where
  prudente : ℚ
  centrale : ℚ
  aggressivo : ℚ
deriving DecidableEq

/-- Python `a or b` on an optional float: `None` and `0.0` are falsy. -/
def pyOrFloat (a : Option ℚ) (b : ℚ) : ℚ :=
  match a with
  | some v => if v = 0 then b else v
  | none => b

/-- Step 4: the portal-only estimate and the new-vs-used spread. -/
def stimaPortaliOf (statNuovo statUsato : Option Stats) : Option StimaTriple × Option ℚ :=
  match statNuovo with
  | some sn =>
    if MIN_COMPARABLE_NUOVO ≤ sn.n then
      (some ⟨sn.p25, sn.mediana, sn.p75⟩, statUsato.map fun su => sn.mediana / su.mediana - 1)
    else if 0 < sn.n then
      (some ⟨sn.p25, sn.mediana, sn.p75⟩, statUsato.map fun su => sn.mediana / su.mediana - 1)
    else
      match statUsato with
      | some su =>
        let spread := (SPREAD_NUOVO_MIN + SPREAD_NUOVO_MAX) / 2
        (some ⟨su.p25 * (1 + SPREAD_NUOVO_MIN), su.mediana * (1 + spread),
               su.p75 * (1 + SPREAD_NUOVO_MAX)⟩, some spread)
      | none => (none, none)
  | none =>
    match statUsato with
    | some su =>
      let spread := (SPREAD_NUOVO_MIN + SPREAD_NUOVO_MAX) / 2
      (some ⟨su.p25 * (1 + SPREAD_NUOVO_MIN), su.mediana * (1 + spread),
             su.p75 * (1 + SPREAD_NUOVO_MAX)⟩, some spread)
    | none => (none, none)

/-- Step 5: the OMI-only estimate (guarded by `val_med_mq is not None`;
`or` is Python truthiness, see `pyOrFloat`). -/
def stimaOmiOf (zonaOmi : Option OMIQuotazione) : Option StimaTriple :=
  match zonaOmi with
  | some q =>
    match q.val_med_mq with
    | some m =>
      some ⟨pyOrFloat q.val_min_mq m * (12 / 10), m * FATTORE_DEFAULT_SU_OMI,
            pyOrFloat q.val_max_mq m * (14 / 10)⟩
    | none => none
  | none => none

/-- The base note of the generic fallback branch. -/
def noteFallbackGenerica : String := "Nessun dato OMI né portali: stima di fallback generica."

/-- Step 6: combination `60% OMI + 40% portali` with the three fallback
branches, returning the final triple and the base note. -/
def blendStima (omi portali : Option StimaTriple) : StimaTriple × String :=
  match omi, portali with
  | some o, some p =>
    (⟨o.prudente * (6 / 10) + p.prudente * (4 / 10),
      o.centrale * (6 / 10) + p.centrale * (4 / 10),
      o.aggressivo * (6 / 10) + p.aggressivo * (4 / 10)⟩,
     "Stima combinata: 60% valori OMI + 40% annunci di mercato (Immobiliare.it).")
  | some o, none =>
    (o, "Stima basata unicamente su valori OMI (nessun dato portali utilizzabile).")
  | none, some p =>
    (p, "Stima basata unicamente su annunci di mercato (Immobiliare.it), OMI non disponibile.")
  | none, none => (⟨2500, 3000, 3500⟩, noteFallbackGenerica)

/-- The notes list assembled after the blend. -/
def buildNote (noteBase : String) (statNuovo statUsato : Option Stats)
    (zonaOmi : Option OMIQuotazione) : List String :=
  [noteBase] ++
  (match statNuovo with
   | some sn =>
     ["Annunci \x27nuovo\x27 considerati: n=" ++ toString sn.n ++
      " (Immobiliare.it, inclusi eventuali \x27nuovo (da prezzo)\x27)."]
   | none => ["Nessun annuncio \x27nuovo\x27 utilizzabile nemmeno dopo l\x27analisi dei prezzi."]) ++
  (match statUsato with
   | some su => ["Annunci \x27usato\x27 considerati: n=" ++ toString su.n ++ " (Immobiliare.it)."]
   | none => ["Nessun annuncio \x27usato\x27 utilizzabile (Immobiliare.it)."]) ++
  (match zonaOmi with
   | none => ["Zona OMI non determinata (verificare copertura KML/CSV)."]
   | some _ => [])

/-- Steps 4-6 of `stima_prezzo_zona_nuova_costruzione` as a function of
the OMI result and the two market statistics: the final estimate triple
and the notes list. -/
def stimaStep (zonaOmi : Option OMIQuotazione) (statNuovo statUsato : Option Stats) :
    StimaTriple × List String :=
  let portali := (stimaPortaliOf statNuovo statUsato).1
  let omi := stimaOmiOf zonaOmi
  let r := blendStima omi portali
  (r.1, buildNote r.2 statNuovo statUsato zonaOmi)

/-! ## Concrete fixtures used by witnesses and counterexamples -/

/-- An on-disk layout with no data files at all. -/
def fsNone : OmiFiles := ⟨none, none, []⟩

/-- A values table with zone "B1" present in two different
municipality/province pairs (TORINO/MI and ROMA/RM). -/
def dfPair : List OmiRow :=
  [⟨"B1", "TORINO", "MI", "Abitazioni civili", "1000", "2000"⟩,
   ⟨"B1", "TORINO", "MI", "Abitazioni signorili", "1200", "2400"⟩,
   ⟨"B1", "ROMA", "RM", "Abitazioni civili", "900", "3000"⟩]

/-- Cache state with `dfPair` already loaded. -/
def stPair : OmiState := ⟨[], some dfPair, none, true⟩

/-- A one-row values table used by the description fixtures. -/
def dfDescr : List OmiRow := [⟨"B1", "TORINO", "MI", "Abitazioni civili", "1000", "2000"⟩]

/-- A zone-description table where zone "B1" has no row for the queried
municipality+province, one row matching the province only, and an
earlier row in a different province. -/
def dzDescr : List ZoneRow :=
  [⟨"B1", "ROMA", "RM", "ALPHA"⟩, ⟨"B1", "MILANO", "MI", "BETA"⟩]

/-- Cache state with `dfDescr` and `dzDescr` loaded. -/
def stDescr : OmiState := ⟨[], some dfDescr, some dzDescr, true⟩

/-- A loaded polygon for the idempotency witness. -/
def polyFix : OmiPolygon := ⟨"B1", "COMO", "CO", [(0, 0), (1, 0), (0, 1)]⟩

/-- Fully loaded cache state (polygons and both tables). -/
def stLoaded : OmiState := ⟨[polyFix], some dfPair, some dzDescr, false⟩

/-- A closed square ring containing a horizontal edge, with the query
point's latitude equal to a vertex latitude. -/
def sqRing : List (ℚ × ℚ) := [(0, 0), (1, 0), (1, 1), (0, 1)]

/-- An OMI result with all three values set, for the blend witness. -/
def quotBlend : OMIQuotazione :=
  ⟨"Como", "CO", "B1", "Zona OMI B1", some 200, some 240, some 300⟩

/-- The result of querying `stPair` for zone "b1" with hints
Torino/MI. -/
def quotPair : OMIQuotazione :=
  ⟨"Torino", "MI", "B1", "Zona OMI B1", some 1000, some 1700, some 2400⟩

/-- The result of querying `stDescr` for zone "B1" with hints
Milano/MI (the description comes from the zone table's tier-1 hit). -/
def quotDescr : OMIQuotazione :=
  ⟨"Torino", "MI", "B1", "Beta", some 1000, some 1500, some 2000⟩

/-! ## C3 -/

/-- C3: numeric parsing round-trip of `_safe_float`.  Evaluation at the
two claimed inputs: `"45,8"` parses to `45.8` as claimed, but
`"1.234,56"` parses to `None`, NOT to `1234.56`: the thousands branch
requires strictly more than one dot (`s.count(".") > 1`), so the single
thousands dot survives the comma rewriting and `float("1.234.56")`
raises.  The code contradicts its own comment (line 67: `"Gestione
migliaia + virgola decimale (es: \"1.234,56\")"`). -/
theorem safe_float_thousands_comma_eval :
    safeFloat "1.234,56" = none ∧ safeFloat "45,8" = some (229 / 5) := by
  constructor <;> with_unfolding_all decide

/-! ## C4 -/

/-- C4: blend policy of the Estimation Blender.  When both the
OMI-derived and the portal-derived estimates are available, every tier
of the final estimate is `official*0.60 + market*0.40`, computed per
tier; when exactly one is available it is passed through unchanged.
(In the source each producing branch sets the three tiers together with
the central one, so availability of the central figure coincides with
availability of the triple, which the `Option StimaTriple` shape
captures.) -/
theorem blend_policy_60_40 (zonaOmi : Option OMIQuotazione) (sn su : Option Stats)
    (o p : StimaTriple) :
    (stimaOmiOf zonaOmi = some o → (stimaPortaliOf sn su).1 = some p →
      (stimaStep zonaOmi sn su).1 =
        ⟨o.prudente * (6 / 10) + p.prudente * (4 / 10),
         o.centrale * (6 / 10) + p.centrale * (4 / 10),
         o.aggressivo * (6 / 10) + p.aggressivo * (4 / 10)⟩) ∧
    (stimaOmiOf zonaOmi = some o → (stimaPortaliOf sn su).1 = none →
      (stimaStep zonaOmi sn su).1 = o) ∧
    (stimaOmiOf zonaOmi = none → (stimaPortaliOf sn su).1 = some p →
      (stimaStep zonaOmi sn su).1 = p) := by
  refine ⟨fun h1 h2 => ?_, fun h1 h2 => ?_, fun h1 h2 => ?_⟩ <;>
    simp [stimaStep, blendStima, h1, h2]

/-- C4 witness: official central 300 and market central 400 blend to
`300*0.6 + 400*0.4 = 340` per tier (the spec's 3000/4000 → 3400 example
scaled by ten), and each single-source case passes through unchanged. -/
theorem blend_policy_60_40_witness :
    ((stimaStep (some quotBlend) (some ⟨6, 400, 350, 450⟩) none).1 =
       ⟨240 * (6 / 10) + 350 * (4 / 10), 300 * (6 / 10) + 400 * (4 / 10),
        420 * (6 / 10) + 450 * (4 / 10)⟩) ∧
    ((stimaStep (some quotBlend) none none).1 = ⟨240, 300, 420⟩) ∧
    ((stimaStep none (some ⟨6, 400, 350, 450⟩) none).1 = ⟨350, 400, 450⟩) :=
  ⟨(blend_policy_60_40 (some quotBlend) (some ⟨6, 400, 350, 450⟩) none
      ⟨240, 300, 420⟩ ⟨350, 400, 450⟩).1
      (by with_unfolding_all decide) (by with_unfolding_all decide),
   (blend_policy_60_40 (some quotBlend) none none
      ⟨240, 300, 420⟩ ⟨350, 400, 450⟩).2.1
      (by with_unfolding_all decide) (by with_unfolding_all decide),
   (blend_policy_60_40 none (some ⟨6, 400, 350, 450⟩) none
      ⟨240, 300, 420⟩ ⟨350, 400, 450⟩).2.2
      (by with_unfolding_all decide) (by with_unfolding_all decide)⟩

/-! ## C8 -/

/-- C8: when the OMI result is absent (or has no central value) and no
market statistics exist for either series, the blender returns the
generic triple 2500/3000/3500 and the notes contain the explicit
fallback note. -/
theorem generic_fallback_triple (zonaOmi : Option OMIQuotazione)
    (h : zonaOmi = none ∨ ∃ q, zonaOmi = some q ∧ q.val_med_mq = none) :
    (stimaStep zonaOmi none none).1 = ⟨2500, 3000, 3500⟩ ∧
    noteFallbackGenerica ∈ (stimaStep zonaOmi none none).2 := by
  have homi : stimaOmiOf zonaOmi = none := by
    rcases h with h | ⟨q, hq, hm⟩
    · rw [h]; rfl
    · rw [hq]; simp [stimaOmiOf, hm]
  refine ⟨?_, ?_⟩ <;> simp [stimaStep, stimaPortaliOf, blendStima, buildNote, homi]

/-- C8 witness at `zonaOmi = none`. -/
theorem generic_fallback_triple_witness :
    ((none : Option OMIQuotazione) = none ∨
      ∃ q, (none : Option OMIQuotazione) = some q ∧ q.val_med_mq = none) ∧
    ((stimaStep none none none).1 = ⟨2500, 3000, 3500⟩ ∧
     noteFallbackGenerica ∈ (stimaStep none none none).2) :=
  ⟨Or.inl rfl, generic_fallback_triple none (Or.inl rfl)⟩

/-! ## C9 -/

/-- C9: a second `warmup_omi_cache` call after a first one is a no-op
guarded by the ready-flag: it returns the state of the first call
unchanged and reads no files; moreover the underlying loaders are
no-ops on their own guards (non-empty polygon list, already-loaded
tables). -/
theorem idempotent_warmup (fs : OmiFiles) (s : OmiState) :
    warmupOmiCache fs (warmupOmiCache fs s).1 = ((warmupOmiCache fs s).1, []) ∧
    (s.omi_polygons ≠ [] → loadOmiPolygons fs s = (s, [])) ∧
    (s.omi_valori_df.isSome → s.omi_zone_df.isSome → loadOmiCsvs fs s = (s, [])) := by
  refine ⟨?_, ?_, ?_⟩
  · by_cases h : s.omi_cache_ready <;> simp [warmupOmiCache, h]
  · intro h
    cases hl : s.omi_polygons with
    | nil => exact absurd hl h
    | cons a l => simp [loadOmiPolygons, hl]
  · intro h1 h2
    obtain ⟨p, v, z, rdy⟩ := s
    obtain ⟨t1, ht1⟩ := Option.isSome_iff_exists.mp h1
    obtain ⟨t2, ht2⟩ := Option.isSome_iff_exists.mp h2
    subst ht1; subst ht2
    rfl

/-- C9 witness on a fully loaded state. -/
theorem idempotent_warmup_witness :
    (warmupOmiCache fsNone (warmupOmiCache fsNone stLoaded).1 =
      ((warmupOmiCache fsNone stLoaded).1, [])) ∧
    loadOmiPolygons fsNone stLoaded = (stLoaded, []) ∧
    loadOmiCsvs fsNone stLoaded = (stLoaded, []) :=
  ⟨(idempotent_warmup fsNone stLoaded).1,
   (idempotent_warmup fsNone stLoaded).2.1 (by simp [stLoaded]),
   (idempotent_warmup fsNone stLoaded).2.2 (by simp [stLoaded]) (by simp [stLoaded])⟩

/-! ## C5 -/

/-- A step of the ray-casting loop returns a value (never a division by
zero) whenever the padded y-span denominator of its edge is non-zero. -/
theorem pipEdge_isSome (x y : ℚ) (p1 p2 : ℚ × ℚ) (b : Bool)
    (hd : p2.2 - p1.2 + rayEps ≠ 0) : (pipEdge x y p1 p2 b).isSome := by
  unfold pipEdge
  split
  · simp [hd]
  · rfl

/-- A fold of option-bind steps stays `some` when every step does. -/
theorem foldl_bind_isSome {α : Type} (f : ℕ → α → Option α) (l : List ℕ) :
    ∀ st : Option α, st.isSome → (∀ i ∈ l, ∀ b, (f i b).isSome) →
      (l.foldl (fun acc i => acc.bind (f i)) st).isSome := by
  induction l with
  | nil => intro st hst _; simpa using hst
  | cons i l ih =>
    intro st hst hf
    simp only [List.foldl_cons]
    obtain ⟨b, hb⟩ := Option.isSome_iff_exists.mp hst
    rw [hb]
    apply ih
    · simpa using hf i (by simp) b
    · intro j hj b'
      exact hf j (by simp [hj]) b'

/-- C5 (amended): `_point_in_polygon` terminates and returns a boolean
for every ring and query point whose edges all have a non-zero padded
y-span denominator `y2 - y1 + 1e-12`.  This covers, in particular,
every ring with horizontal edges (`y2 - y1 = 0`, denominator `1e-12`)
and every query point whose latitude equals a vertex latitude — the
cases named by the claim.  The unqualified claim is refuted by
`ray_casting_div_by_zero_cex`: an edge whose y-span is exactly
`-1e-12` zeroes the padded denominator and Python raises
`ZeroDivisionError`. -/
theorem ray_casting_totality (x y : ℚ) (poly : List (ℚ × ℚ))
    (h : ∀ i, i < poly.length →
      (vtx poly ((i + 1) % poly.length)).2 - (vtx poly i).2 + rayEps ≠ 0) :
    (pointInPolygon x y poly).isSome := by
  unfold pointInPolygon
  split
  · rfl
  · exact foldl_bind_isSome
      (fun i => pipEdge x y (vtx poly i) (vtx poly ((i + 1) % poly.length)))
      (List.range poly.length) (some false) rfl
      (fun i hi b => pipEdge_isSome x y _ _ b (h i (List.mem_range.mp hi)))

/-- C5 counterexample to the claim as stated ("for every ring ... and
every query point"): on the ring `[(0,0), (1,-1e-12), (0,1)]` and the
query point `(0, -5e-13)` the first edge satisfies the crossing test
and its padded denominator is `-1e-12 - 0 + 1e-12 = 0`, so the code
raises `ZeroDivisionError` (modelled as `none`) instead of returning a
boolean. -/
theorem ray_casting_div_by_zero_cex :
    pointInPolygon 0 (-(1 / 2000000000000))
      [(0, 0), (1, -(1 / 1000000000000)), (0, 1)] = none := by
  with_unfolding_all decide

/-- C5 witness: a square ring with a horizontal bottom edge, queried at
a point whose latitude equals that edge's vertex latitudes. -/
theorem ray_casting_totality_witness :
    (∀ i, i < sqRing.length →
      (vtx sqRing ((i + 1) % sqRing.length)).2 - (vtx sqRing i).2 + rayEps ≠ 0) ∧
    (pointInPolygon (1 / 2) 0 sqRing).isSome :=
  ⟨by with_unfolding_all decide,
   ray_casting_totality (1 / 2) 0 sqRing (by with_unfolding_all decide)⟩

/-! ## C6 -/

/-- C6 (amended): if the values CSV is missing on disk and not yet
loaded, `warmup_omi_cache` completes normally (there is no raise
statement anywhere on this path), still sets the ready-flag, and every
subsequent `_get_valori_for_zona` query silently returns `None`. -/
theorem missing_tables_silent_none (fs : OmiFiles) (s : OmiState) (zona : String)
    (ck pk : Option String) (h1 : fs.valoriCsv = none) (h2 : s.omi_valori_df = none) :
    (warmupOmiCache fs s).1.omi_cache_ready = true ∧
    (getValoriForZona fs (warmupOmiCache fs s).1 zona ck pk).2 = none := by
  have hload : ∀ s' : OmiState, s'.omi_valori_df = none →
      (loadOmiCsvs fs s').1.omi_valori_df = none := by
    intro s' hs'
    simp [loadOmiCsvs, hs', h1]
  have hwv : (warmupOmiCache fs s).1.omi_valori_df = none := by
    by_cases hr : s.omi_cache_ready
    · simpa [warmupOmiCache, hr] using h2
    · simp only [warmupOmiCache, hr, if_false, Bool.false_eq_true]
      unfold loadOmiPolygons
      split <;> simpa using hload s h2
  have hwr : (warmupOmiCache fs s).1.omi_cache_ready = true := by
    by_cases hr : s.omi_cache_ready
    · simp [warmupOmiCache, hr]
    · simp [warmupOmiCache, hr]
  refine ⟨hwr, ?_⟩
  simp [getValoriForZona, hload _ hwv]

/-- C6 counterexample to the claim as stated: with the values CSV
entirely missing at first load, the first load completes and marks the
cache ready — in the source there is no raise on this path (the
`os.path.exists` guard silently skips the read) — and a subsequent
query returns `None` rather than propagating an explicit error. -/
theorem missing_tables_raise_cex :
    (warmupOmiCache fsNone initOmiState).1.omi_cache_ready = true ∧
    (warmupOmiCache fsNone initOmiState).1.omi_valori_df = none ∧
    (getValoriForZona fsNone (warmupOmiCache fsNone initOmiState).1
      "B1" (some "COMO") (some "CO")).2 = none := by
  refine ⟨rfl, rfl, rfl⟩

/-- C6 witness for the amended statement. -/
theorem missing_tables_silent_none_witness :
    (fsNone.valoriCsv = none ∧ initOmiState.omi_valori_df = none) ∧
    ((warmupOmiCache fsNone initOmiState).1.omi_cache_ready = true ∧
     (getValoriForZona fsNone (warmupOmiCache fsNone initOmiState).1
       "B2" (some "ROMA") (some "RM")).2 = none) :=
  ⟨⟨rfl, rfl⟩,
   missing_tables_silent_none fsNone initOmiState "B2" (some "ROMA") (some "RM") rfl rfl⟩

/-! ## Structural lemmas about `_get_valori_for_zona` -/

/-- Helper: a non-nil list has `isEmpty = false`. -/
theorem isEmpty_false_of_ne_nil {α : Type} {l : List α} (h : l ≠ []) :
    l.isEmpty = false := by
  cases l with
  | nil => exact absurd rfl h
  | cons a t => rfl

/-- With a loaded values table, `_get_valori_for_zona` returns the pure
core's result. -/
theorem getValori_shape (fs : OmiFiles) (s : OmiState) (zona : String)
    (ck pk : Option String) (df : List OmiRow)
    (hdf : (loadOmiCsvs fs s).1.omi_valori_df = some df) :
    (getValoriForZona fs s zona ck pk).2 =
      getValoriCore df (loadOmiCsvs fs s).1.omi_zone_df zona ck pk := by
  simp only [getValoriForZona]
  rw [hdf]

/-- When the hierarchical match is non-empty, the core produces the
result record built from the first matched row, the description
resolution, and the value triple of the matched row-set. -/
theorem getValoriCore_some (df0 : List OmiRow) (dz? : Option (List ZoneRow))
    (zona : String) (ck pk : Option String) (r : OmiRow) (rest : List OmiRow)
    (hrows : matchedRows (residentialFilter df0) (pyUpper (pyStrip zona))
      (normHint ck) (normHint pk) = r :: rest) :
    getValoriCore df0 dz? zona ck pk =
      some ⟨pyTitle r.Comune_descrizione, pyUpper r.Prov, pyUpper (pyStrip zona),
            descrForZona dz? (pyUpper (pyStrip zona)) (normHint ck) (normHint pk),
            (computeVals (r :: rest)).1, (computeVals (r :: rest)).2.1,
            (computeVals (r :: rest)).2.2⟩ := by
  have hne : df0 ≠ [] := by
    intro h
    rw [h] at hrows
    simp [residentialFilter, matchedRows] at hrows
  simp only [getValoriCore, isEmpty_false_of_ne_nil hne, Bool.false_eq_true, if_false]
  rw [hrows]

/-- Inversion: every `some` result of `_get_valori_for_zona` arises
from a loaded table and a non-empty hierarchical match, and is exactly
the record built from them. -/
theorem getValori_inversion (fs : OmiFiles) (s : OmiState) (zona : String)
    (ck pk : Option String) (q : OMIQuotazione)
    (h : (getValoriForZona fs s zona ck pk).2 = some q) :
    ∃ df r rest, (loadOmiCsvs fs s).1.omi_valori_df = some df ∧
      matchedRows (residentialFilter df) (pyUpper (pyStrip zona))
        (normHint ck) (normHint pk) = r :: rest ∧
      q = ⟨pyTitle r.Comune_descrizione, pyUpper r.Prov, pyUpper (pyStrip zona),
           descrForZona (loadOmiCsvs fs s).1.omi_zone_df (pyUpper (pyStrip zona))
             (normHint ck) (normHint pk),
           (computeVals (r :: rest)).1, (computeVals (r :: rest)).2.1,
           (computeVals (r :: rest)).2.2⟩ := by
  rcases hdf : (loadOmiCsvs fs s).1.omi_valori_df with _ | df
  · rw [getValoriForZona] at h
    rw [hdf] at h
    simp at h
  · have hc : getValoriCore df (loadOmiCsvs fs s).1.omi_zone_df zona ck pk = some q :=
      (getValori_shape fs s zona ck pk df hdf).symm.trans h
    by_cases hemp : df.isEmpty
    · simp [getValoriCore, hemp] at hc
    · rcases hrows : matchedRows (residentialFilter df) (pyUpper (pyStrip zona))
          (normHint ck) (normHint pk) with _ | ⟨r, rest⟩
      · have hnone : getValoriCore df (loadOmiCsvs fs s).1.omi_zone_df zona ck pk = none := by
          simp [getValoriCore, hemp, hrows]
        rw [hnone] at hc
        cases hc
      · rw [getValoriCore_some df _ zona ck pk r rest hrows] at hc
        exact ⟨df, r, rest, rfl, hrows, (Option.some.inj hc).symm⟩

/-- The value triple is either all-`none` or all-`some`. -/
theorem computeVals_shape (rows : List OmiRow) :
    computeVals rows = (none, none, none) ∨
    ∃ a b c : ℚ, computeVals rows = (some a, some b, some c) := by
  rcases h1 : listMinQ (rows.filterMap fun r => safeFloat r.Compr_min) with _ | a
  · exact Or.inl (by simp [computeVals, h1])
  · rcases h2 : listMaxQ (rows.filterMap fun r => safeFloat r.Compr_max) with _ | b
    · exact Or.inl (by simp [computeVals, h1, h2])
    · exact Or.inr ⟨a, (a + b) / 2, b, by simp [computeVals, h1, h2]⟩

/-- The value triple when both columns have a parseable entry. -/
theorem computeVals_comp (rows : List OmiRow) (a b : ℚ)
    (h1 : listMinQ (rows.filterMap fun r => safeFloat r.Compr_min) = some a)
    (h2 : listMaxQ (rows.filterMap fun r => safeFloat r.Compr_max) = some b) :
    computeVals rows = (some a, some ((a + b) / 2), some b) := by
  simp [computeVals, h1, h2]

/-- A non-empty list has a Python `min` (and symmetrically a `max`). -/
theorem listMinQ_of_ne_nil {l : List ℚ} (h : l ≠ []) : ∃ a, listMinQ l = some a := by
  cases l with
  | nil => exact absurd rfl h
  | cons x t => exact ⟨t.foldl min x, rfl⟩

/-- A non-empty list has a Python `max`. -/
theorem listMaxQ_of_ne_nil {l : List ℚ} (h : l ≠ []) : ∃ a, listMaxQ l = some a := by
  cases l with
  | nil => exact absurd rfl h
  | cons x t => exact ⟨t.foldl max x, rfl⟩

/-! ## C10 -/

/-- C10: all-or-nothing nullability of the value triple — every
`OMIQuotazione` produced by `_get_valori_for_zona` has its three value
fields all `None` or all set. -/
theorem value_triple_all_or_nothing (fs : OmiFiles) (s : OmiState) (zona : String)
    (ck pk : Option String) (q : OMIQuotazione)
    (h : (getValoriForZona fs s zona ck pk).2 = some q) :
    (q.val_min_mq = none ∧ q.val_med_mq = none ∧ q.val_max_mq = none) ∨
    (q.val_min_mq.isSome ∧ q.val_med_mq.isSome ∧ q.val_max_mq.isSome) := by
  obtain ⟨df, r, rest, hdf, hrows, rfl⟩ := getValori_inversion fs s zona ck pk q h
  rcases computeVals_shape (r :: rest) with hcv | ⟨a, b, c, hcv⟩
  · exact Or.inl (by simp [hcv])
  · exact Or.inr (by simp [hcv])

/-- C10 witness: a query on `stPair` that returns a fully populated
triple. -/
theorem value_triple_all_or_nothing_witness :
    ((getValoriForZona fsNone stPair "b1" (some "Torino") (some "MI")).2 = some quotPair) ∧
    ((quotPair.val_min_mq = none ∧ quotPair.val_med_mq = none ∧ quotPair.val_max_mq = none) ∨
     (quotPair.val_min_mq.isSome ∧ quotPair.val_med_mq.isSome ∧ quotPair.val_max_mq.isSome)) :=
  ⟨by with_unfolding_all decide,
   value_triple_all_or_nothing fsNone stPair "b1" (some "Torino") (some "MI") quotPair
     (by with_unfolding_all decide)⟩

/-! ## C2 -/

/-- C2: mean-of-extremes — whenever the hierarchical match is non-empty
and both `Compr_min` and `Compr_max` contain at least one parseable
number over the matched rows, the result's `val_min_mq` is the minimum
of the parseable `Compr_min` values, `val_max_mq` the maximum of the
parseable `Compr_max` values, and `val_med_mq` exactly their midpoint
`(min + max) / 2` — not a statistical median of the rows. -/
theorem mean_of_extremes (fs : OmiFiles) (s : OmiState) (df : List OmiRow)
    (zona : String) (ck pk : Option String) (rows : List OmiRow) (vmins vmaxs : List ℚ)
    (hdf : (loadOmiCsvs fs s).1.omi_valori_df = some df)
    (hrows : rows = matchedRows (residentialFilter df) (pyUpper (pyStrip zona))
      (normHint ck) (normHint pk))
    (hmins : vmins = rows.filterMap fun r => safeFloat r.Compr_min)
    (hmaxs : vmaxs = rows.filterMap fun r => safeFloat r.Compr_max)
    (hm : vmins ≠ []) (hM : vmaxs ≠ []) :
    ∃ q, (getValoriForZona fs s zona ck pk).2 = some q ∧
      q.val_min_mq = listMinQ vmins ∧ q.val_max_mq = listMaxQ vmaxs ∧
      ∃ a b, listMinQ vmins = some a ∧ listMaxQ vmaxs = some b ∧
        q.val_med_mq = some ((a + b) / 2) := by
  subst hrows
  subst hmins
  subst hmaxs
  obtain ⟨r, rest, hcons⟩ : ∃ r rest,
      matchedRows (residentialFilter df) (pyUpper (pyStrip zona))
        (normHint ck) (normHint pk) = r :: rest := by
    rcases hx : matchedRows (residentialFilter df) (pyUpper (pyStrip zona))
        (normHint ck) (normHint pk) with _ | ⟨r, rest⟩
    · rw [hx] at hm
      simp at hm
    · exact ⟨r, rest, rfl⟩
  obtain ⟨a, ha⟩ := listMinQ_of_ne_nil hm
  obtain ⟨b, hb⟩ := listMaxQ_of_ne_nil hM
  have hcv : computeVals (r :: rest) = (some a, some ((a + b) / 2), some b) := by
    rw [hcons] at ha hb
    exact computeVals_comp _ a b ha hb
  refine ⟨_, (getValori_shape fs s zona ck pk df hdf).trans
      (getValoriCore_some df _ zona ck pk r rest hcons), ?_, ?_, a, b, ha, hb, ?_⟩
  · simp [hcv, ha]
  · simp [hcv, hb]
  · simp [hcv]

/-- C2 witness: `stPair` with hints Torino/MI matches compr_min values
`[1000, 1200]` and compr_max values `[2000, 2400]`, so min = 1000,
max = 2400, med = (1000 + 2400)/2 = 1700 (the spec's own example). -/
theorem mean_of_extremes_witness :
    ∃ q, (getValoriForZona fsNone stPair "b1" (some "Torino") (some "MI")).2 = some q ∧
      q.val_min_mq = listMinQ [1000, 1200] ∧ q.val_max_mq = listMaxQ [2000, 2400] ∧
      ∃ a b, listMinQ [1000, 1200] = some a ∧ listMaxQ [2000, 2400] = some b ∧
        q.val_med_mq = some ((a + b) / 2) :=
  mean_of_extremes fsNone stPair dfPair "b1" (some "Torino") (some "MI")
    (matchedRows (residentialFilter dfPair) (pyUpper (pyStrip "b1"))
      (normHint (some "Torino")) (normHint (some "MI")))
    [1000, 1200] [2000, 2400] rfl rfl
    (by with_unfolding_all decide) (by with_unfolding_all decide)
    (by with_unfolding_all decide) (by with_unfolding_all decide)

/-! ## C1 -/

/-- C1: hierarchical match priority — when both hints are non-empty and
some residential row matches all three keys, the matched row-set is
exactly the set of rows matching all three keys case-insensitively;
every row that contributes matches the queried
municipality/province pair (so no value comes from another pair, and no
mix is possible), and the returned value triple is computed from
exactly that row-set. -/
theorem hierarchical_match_priority (fs : OmiFiles) (s : OmiState) (df : List OmiRow)
    (zona comune prov : String) (zU cU pU : String)
    (hdf : (loadOmiCsvs fs s).1.omi_valori_df = some df)
    (hzU : zU = pyUpper (pyStrip zona)) (hcU : cU = normHint (some comune))
    (hpU : pU = normHint (some prov))
    (hc : cU ≠ "") (hp : pU ≠ "")
    (hex : ∃ r ∈ residentialFilter df, match3Keys zU cU pU r = true) :
    matchedRows (residentialFilter df) zU cU pU =
      (residentialFilter df).filter (match3Keys zU cU pU) ∧
    (∀ r ∈ matchedRows (residentialFilter df) zU cU pU,
      pyUpper r.Zona = zU ∧ pyUpper r.Comune_descrizione = cU ∧ pyUpper r.Prov = pU) ∧
    ∃ q, (getValoriForZona fs s zona (some comune) (some prov)).2 = some q ∧
      (q.val_min_mq, q.val_med_mq, q.val_max_mq) =
        computeVals ((residentialFilter df).filter (match3Keys zU cU pU)) := by
  have hcb : (cU == "") = false := beq_eq_false_iff_ne.mpr hc
  have hpb : (pU == "") = false := beq_eq_false_iff_ne.mpr hp
  have hfil : ∀ r ∈ residentialFilter df, valoriTier1 zU cU pU r = match3Keys zU cU pU r := by
    intro r _
    simp [valoriTier1, match3Keys, hcb, hpb]
  have heq : (residentialFilter df).filter (valoriTier1 zU cU pU) =
      (residentialFilter df).filter (match3Keys zU cU pU) := List.filter_congr hfil
  obtain ⟨r0, hr0, hm0⟩ := hex
  have hne : (residentialFilter df).filter (match3Keys zU cU pU) ≠ [] :=
    List.ne_nil_of_mem (List.mem_filter.mpr ⟨hr0, hm0⟩)
  have hmr : matchedRows (residentialFilter df) zU cU pU =
      (residentialFilter df).filter (match3Keys zU cU pU) := by
    unfold matchedRows
    rw [heq]
    simp [isEmpty_false_of_ne_nil hne]
  refine ⟨hmr, ?_, ?_⟩
  · intro r hr
    rw [hmr] at hr
    simpa [match3Keys, and_assoc] using (List.mem_filter.mp hr).2
  · obtain ⟨r, rest, hcons⟩ : ∃ r rest,
        matchedRows (residentialFilter df) zU cU pU = r :: rest := by
      rcases hx : matchedRows (residentialFilter df) zU cU pU with _ | ⟨r, rest⟩
      · rw [hmr] at hx
        exact absurd hx hne
      · exact ⟨r, rest, rfl⟩
    have hcons' : matchedRows (residentialFilter df) (pyUpper (pyStrip zona))
        (normHint (some comune)) (normHint (some prov)) = r :: rest := by
      rw [← hzU, ← hcU, ← hpU]
      exact hcons
    refine ⟨_, (getValori_shape fs s zona (some comune) (some prov) df hdf).trans
        (getValoriCore_some df _ zona (some comune) (some prov) r rest hcons'), ?_⟩
    show ((computeVals (r :: rest)).1, (computeVals (r :: rest)).2.1,
          (computeVals (r :: rest)).2.2) = _
    rw [← hcons, hmr]

/-- C1 witness: `dfPair` holds zone "B1" in both TORINO/MI and ROMA/RM;
querying with hints Torino/MI uses exactly the TORINO/MI rows. -/
theorem hierarchical_match_priority_witness :
    (matchedRows (residentialFilter dfPair) "B1" "TORINO" "MI" =
      (residentialFilter dfPair).filter (match3Keys "B1" "TORINO" "MI")) ∧
    (∀ r ∈ matchedRows (residentialFilter dfPair) "B1" "TORINO" "MI",
      pyUpper r.Zona = "B1" ∧ pyUpper r.Comune_descrizione = "TORINO" ∧
      pyUpper r.Prov = "MI") ∧
    ∃ q, (getValoriForZona fsNone stPair "b1" (some "Torino") (some "MI")).2 = some q ∧
      (q.val_min_mq, q.val_med_mq, q.val_max_mq) =
        computeVals ((residentialFilter dfPair).filter (match3Keys "B1" "TORINO" "MI")) :=
  hierarchical_match_priority fsNone stPair dfPair "b1" "Torino" "MI" "B1" "TORINO" "MI"
    rfl (by with_unfolding_all decide) (by with_unfolding_all decide)
    (by with_unfolding_all decide) (by with_unfolding_all decide)
    (by with_unfolding_all decide) (by with_unfolding_all decide)

/-! ## C7 -/

/-- C7 (amended): the zone description is resolved by a two-tier match
— first `{zone + all supplied hints}` (municipality and province
together when both are present), then directly `{zone alone}` — with
the raw text cleaned by `cleanDescr` (strip quotes, title-case, replace
colon separators with an en-dash); if no row matches at either tier (or
the zone table is absent/empty) the synthesized label
`"Zona OMI <code>"` is used.  There are no intermediate
`{zone + province}` / `{zone + municipality}` tiers, contrary to the
claim — see `zone_descr_two_tier_cex`. -/
theorem zone_descr_resolution (fs : OmiFiles) (s : OmiState) (zona : String)
    (ck pk : Option String) (q : OMIQuotazione) (dz : List ZoneRow) (zU cU pU : String)
    (hdz : (loadOmiCsvs fs s).1.omi_zone_df = some dz)
    (h : (getValoriForZona fs s zona ck pk).2 = some q)
    (hzU : zU = pyUpper (pyStrip zona)) (hcU : cU = normHint ck)
    (hpU : pU = normHint pk) :
    (∀ r rest, dz.filter (zoneTier1 zU cU pU) = r :: rest →
      q.zona_descrizione = cleanDescr r.Zona_Descr) ∧
    (dz.filter (zoneTier1 zU cU pU) = [] →
      ∀ r rest, dz.filter (fun x => pyUpper x.Zona == zU) = r :: rest →
        q.zona_descrizione = cleanDescr r.Zona_Descr) ∧
    (dz.filter (fun x => pyUpper x.Zona == zU) = [] →
      q.zona_descrizione = "Zona OMI " ++ zU) := by
  subst hzU
  subst hcU
  subst hpU
  obtain ⟨df, r0, rest0, hdf, hrows, rfl⟩ := getValori_inversion fs s zona ck pk q h
  refine ⟨?_, ?_, ?_⟩
  · intro r rest hr
    have hdzne : dz.isEmpty = false := by
      cases dz with
      | nil => simp at hr
      | cons a t => rfl
    show descrForZona (loadOmiCsvs fs s).1.omi_zone_df _ _ _ = _
    rw [hdz]
    simp [descrForZona, hdzne, hr]
  · intro hemptyT r rest hr
    have hdzne : dz.isEmpty = false := by
      cases dz with
      | nil => simp at hr
      | cons a t => rfl
    show descrForZona (loadOmiCsvs fs s).1.omi_zone_df _ _ _ = _
    rw [hdz]
    simp [descrForZona, hdzne, hemptyT, hr]
  · intro hz
    have ht : dz.filter (zoneTier1 (pyUpper (pyStrip zona)) (normHint ck) (normHint pk)) = [] := by
      rw [List.filter_eq_nil_iff] at hz ⊢
      intro a ha hpa
      apply hz a ha
      rw [zoneTier1] at hpa
      simp only [Bool.and_eq_true] at hpa
      exact hpa.1.1
    show descrForZona (loadOmiCsvs fs s).1.omi_zone_df _ _ _ = _
    rw [hdz]
    by_cases hdzE : dz.isEmpty
    · simp [descrForZona, hdzE]
    · simp [descrForZona, hdzE, ht, hz]

/-- C7 counterexample to the claimed `{zone + province}` intermediate
tier: in `dzDescr` no row matches `{B1, TORINO, MI}`, the unique
`{zone + province}` row is the MILANO/MI one with raw text "BETA", yet
the code returns "Alpha" — cleaned from the ROMA/RM row, reached by
falling directly to the zone-only tier. -/
theorem zone_descr_two_tier_cex :
    ((getValoriForZona fsNone stDescr "B1" (some "Torino") (some "MI")).2.map
        OMIQuotazione.zona_descrizione = some "Alpha") ∧
    dzDescr.filter (fun r => pyUpper r.Zona == "B1" && pyUpper r.Prov == "MI") =
      [⟨"B1", "MILANO", "MI", "BETA"⟩] ∧
    cleanDescr "BETA" = "Beta" ∧
    ("Alpha" : String) ≠ "Beta" := by
  refine ⟨?_, ?_, ?_, ?_⟩ <;> with_unfolding_all decide

/-- C7 witness: a tier-1 hit — querying `stDescr` with hints Milano/MI
resolves the description from the `{zone, municipality, province}`
matching row's text "BETA", cleaned to "Beta". -/
theorem zone_descr_resolution_witness :
    quotDescr.zona_descrizione = cleanDescr "BETA" :=
  (zone_descr_resolution fsNone stDescr "B1" (some "Milano") (some "MI") quotDescr
    dzDescr "B1" "MILANO" "MI" (by with_unfolding_all decide)
    (by with_unfolding_all decide) (by with_unfolding_all decide)
    (by with_unfolding_all decide) (by with_unfolding_all decide)).1
    ⟨"B1", "MILANO", "MI", "BETA"⟩ [] (by with_unfolding_all decide)

end PlanetAI

